import Mathlib

/-!
Verification of `src/usr/libexec/vyos/op_mode/auto_image_installer.py`
(hauke-cloud/vyos-customization).

The Python program is shallowly embedded as pure Lean functions.  Stateful
operations (mounting, copying, bootloader registration, ...) are modelled as
an explicit trace of `Effect`s, produced in the same order as the
corresponding external calls in the source, together with an `ExitStatus`
mirroring the process exit (`sys.exit()` with no argument = status 0,
`sys.exit(msg)` = non-zero with a message).  The observable filesystem /
mount state is obtained by folding the trace over a `SysState`.

External collaborators (`vyos.system.disk`, `grub`, `image`, `download`,
`unsaved_commits`, ...) are oracles: their results are fields of `World`.
Python floats appearing in `--root-size-gb` are modelled as rationals; the
only arithmetic performed on them (multiplication by `1024**3` and `int()`
truncation towards zero) is exact on every finite float, so the model is
faithful on the whole domain of the source.  Python truthiness tests on
strings/floats/ints (`if x:`) are translated explicitly
(`x ≠ ""` / `x ≠ 0`).
-/

/-! ### Message and size constants (source lines 67-127) -/

def MSG_ERR_NOT_LIVE : String :=
  "The system is already installed. Please use \"add system image\" instead."

def MSG_ERR_LIVE : String :=
  "The system is in live-boot mode. Please use \"install image\" instead."

def MSG_ERR_UNSAVED_COMMITS : String :=
  "There are unsaved changes to the configuration. Either save or revert before upgrade."

def MSG_ERR_NO_DISK : String :=
  "No suitable disk was found. There must be at least one disk of 2GB or greater size."

def MSG_INFO_INSTALL_WELCOME : String :=
  "Welcome to VyOS installation!\nThis command will install VyOS to your permanent storage."

def MSG_INFO_INSTALL_SUCCESS : String :=
  "The image installed successfully; please reboot now."

def MSG_INFO_INSTALL_DISK_CONFIRM : String :=
  "Installation will delete all data on the drive. Continue?"

def MSG_INFO_INSTALL_PARTITONING : String :=
  "Creating partition table..."

def MSG_WARN_CONSOLE_TYPE_INVALID : String :=
  "Invalid console type. Using default KVM console."

def MSG_LOWMEM_WARNING : String :=
  "Your system has less than 4GB of RAM, installation may fail if you continue. Please consider closing other programs to free up memory."

def CONST_MIN_DISK_SIZE : Int := 2147483648

def CONST_MIN_ROOT_SIZE : Int := 1610612736

def DIR_ISO_MOUNT : String := "/mnt/iso"

def DIR_INSTALLATION : String := "/mnt/installation"

def DIR_ROOTFS_SRC : String := DIR_ISO_MOUNT ++ "/live"

def FILE_ROOTFS_SRC : String := DIR_ROOTFS_SRC ++ "/filesystem.squashfs"

/-- Destination used by the `download(...)` call in `add_image`
(source line 524). -/
def TMP_DOWNLOAD_PATH : String := "/tmp/vyos_image.iso"

/-! ### Effects

Every call the program makes to an external collaborator that can change
observable system state (or produce output) is recorded as one `Effect`.
The per-file kernel/initrd copy loop (source lines 462-464 and 574-576) is
summarised by the single abstract effect `copyBootFiles`; no claim depends
on the individual kernel file names.  The advisory print inside
`ask_root_size` (source line 280) carries the available space; its
human-readable `GB` formatting is abstracted. -/

inductive Effect where
  | print (msg : String)
  | printInvalidRootSize (available_space : Int)
  | downloadTo (url dest : String)
  | mkdir (path : String)
  | mount (src dest : String)
  | umount (dest : String)
  | copyFile (src dest : String)
  | copyBootFiles (src dest : String)
  | writeFile (path : String)
  | removeItem (path : String)
  | diskCleanup (device : String)
  | parttableCreate (device kind : String)
  | partitionCreate (device : String) (size : Int)
  | filesystemCreate (device fstype : String)
  | grubInstall (device : String)
  | setConsoleType (console root : String)
  | versionAdd (name root : String)
  | setDefault (name root : String)
  | sync
deriving DecidableEq, Repr

inductive ExitStatus where
  | success
  | fatal (msg : String)
deriving DecidableEq, Repr

/-! ### Observable system state -/

structure SysState where
  mounted : List String
  files : List String
  grub_versions : List String
  default_image : Option String
deriving DecidableEq, Repr

/-- How one effect changes the observable state.  `removeItem` models
`rmtree`/`unlink` (source lines 152-158): it removes the path itself and
everything below it. -/
def applyEffect (s : SysState) (e : Effect) : SysState :=
  match e with
  | .downloadTo _ dest => { s with files := dest :: s.files }
  | .mkdir p => { s with files := p :: s.files }
  | .mount _ dest => { s with mounted := dest :: s.mounted }
  | .umount dest => { s with mounted := s.mounted.filter (· ≠ dest) }
  | .copyFile _ dest => { s with files := dest :: s.files }
  | .writeFile p => { s with files := p :: s.files }
  | .removeItem p =>
      { s with files := s.files.filter (fun f => ¬(f = p ∨ (p ++ "/").data.isPrefixOf f.data)) }
  | .versionAdd n _ => { s with grub_versions := n :: s.grub_versions }
  | .setDefault n _ => { s with default_image := some n }
  | _ => s

def applyEffects (s : SysState) (tr : List Effect) : SysState :=
  tr.foldl applyEffect s

/-- The empty initial state of a run. -/
def initState : SysState := ⟨[], [], [], none⟩

/-! ### `cleanup` (source lines 130-160)

`cleanup(mounts, remove_items)` prints, unmounts each mount point in
`mounts` and removes each item of `remove_items`, defaulting to the
installation directory when no items are given.  Unmount/remove failures
are swallowed by the source (lines 148-149, 159-160); the model lets the
operations take effect. -/

def cleanup (mounts : List String := []) (remove_items : List String := []) : List Effect :=
  Effect.print "Cleaning up" ::
    (mounts.map Effect.umount ++
      (if remove_items.isEmpty then [DIR_INSTALLATION] else remove_items).map
        Effect.removeItem)

/-! ### `gb_to_bytes` (source lines 175-184) and `ask_root_size` (264-287) -/

/-- Truncation of a rational towards zero, the semantics of Python `int()`
on a float. -/
def rat_trunc (q : ℚ) : Int := q.num.tdiv (q.den : Int)

/-- `int(size * 1024**3)` (source line 184). -/
def gb_to_bytes (size : ℚ) : Int := rat_trunc (size * (1024 ^ 3 : ℚ))

/-- Source lines 264-287.  Returns the resolved root size in bytes plus the
effects (the advisory print) it performs.  `root_size_gb = none` models
Python `None`; the source tests `if root_size_gb:`, which is false for
`None` and for `0.0`. -/
def ask_root_size (available_space : Int) (no_prompt : Bool)
    (root_size_gb : Option ℚ) : Int × List Effect :=
  if no_prompt then
    match root_size_gb with
    | some root_size_gb =>
      if root_size_gb ≠ 0 then
        let root_size := gb_to_bytes root_size_gb
        if root_size < CONST_MIN_ROOT_SIZE ∨ root_size > available_space then
          (available_space, [Effect.printInvalidRootSize available_space])
        else
          (root_size, [])
      else
        (available_space, [])
    | none => (available_space, [])
  else
    (available_space, [])

/-! ### `ask_single_disk` (source lines 239-261) -/

/-- Source lines 239-261.  In non-interactive mode a truthy pre-selected
target disk is used when it is among the candidates, else the first
candidate; `disks_available` is non-empty at every call site (guarded by
the `MSG_ERR_NO_DISK` exit), so the `disks_available[0]` indexing is
modelled with `headD`. -/
def ask_single_disk (disks_available : List String) (no_prompt : Bool)
    (target_disk : Option String) : String × List Effect :=
  if no_prompt then
    let disk_selected :=
      match target_disk with
      | some t => if t ≠ "" ∧ t ∈ disks_available then t else disks_available.headD ""
      | none => disks_available.headD ""
    (disk_selected, [Effect.print ("Using disk: " ++ disk_selected)])
  else
    (disks_available.headD "", [])

/-! ### Named sub-traces

The conditional effect lists of the workflows, named so that lemmas about
them can be stated once. -/

/-- The low-memory advisory of source lines 391-393. -/
def lowmem_warning_fx (mem_total : Option Int) : List Effect :=
  match mem_total with
  | some m => if m ≠ 0 ∧ m < 4294967296 then [Effect.print MSG_LOWMEM_WARNING] else []
  | none => []

/-- The conditional ISO mount of source lines 457-459 (`if iso_path:`). -/
def iso_mount_fx (persistence_inst : Option String) : List Effect :=
  match persistence_inst with
  | some p => if p = "" then [] else [Effect.mount p DIR_ISO_MOUNT]
  | none => []

/-- The conditional ISO unmount of source lines 485-486. -/
def iso_umount_fx (persistence_inst : Option String) : List Effect :=
  match persistence_inst with
  | some p => if p = "" then [] else [Effect.umount DIR_ISO_MOUNT]
  | none => []

/-- The conditional squashfs copy of source lines 467-468 and 578-579. -/
def squashfs_copy_fx (squashfs_exists : Bool) (dst : String) : List Effect :=
  if squashfs_exists then [Effect.copyFile FILE_ROOTFS_SRC dst] else []

/-- The conditional default-pointer update of source lines 476-477 and
589-590. -/
def set_default_fx (set_default : Bool) (name root : String) : List Effect :=
  if set_default then [Effect.setDefault name root] else []

/-! ### Image-name collision resolution (source lines 553-559)

```
if new_image_name in installed_images:
    counter = 1
    while name-dot-counter in installed_images:
        counter += 1
    new_image_name = name-dot-counter
```
(where name-dot-counter is the f-string interpolation appending a dot and
the decimal counter)

The unbounded `while` loop is embedded with explicit fuel;
`installed_images.length + 1` iterations always suffice (proved below:
the candidate names are pairwise distinct, so at most
`installed_images.length` of them can collide). -/

/-- The f-string appending a dot and the counter: Python renders the
counter in decimal, which is exactly `Nat.repr`. -/
def suffixed (name : String) (counter : Nat) : String :=
  name ++ "." ++ Nat.repr counter

def resolveLoop (name : String) (installed : List String) : Nat → Nat → Nat
  | _, 0 => 0
  | counter, fuel + 1 =>
    if suffixed name counter ∈ installed then
      resolveLoop name installed (counter + 1) fuel
    else
      counter

def resolve_image_name (name : String) (installed : List String) : String :=
  if name ∈ installed then
    suffixed name (resolveLoop name installed 1 (installed.length + 1))
  else
    name

/-! ### The external world

Results of every external collaborator consulted by the two workflows.
`VersionData` mirrors the JSON version metadata: the source only ever reads
its `version` field (line 549); `architecture` and `flavor` are present in
the data model (and in the spec) but `add_image` never consults them — this
is material to claim C1. -/

structure VersionData where
  version : Option String
  architecture : Option String
  flavor : Option String
deriving DecidableEq, Repr

structure World where
  /-- `image.is_live_boot()` (lines 385, 511). -/
  is_live_boot : Bool
  /-- `unsaved_commits()` (line 515). -/
  unsaved_commits : Bool
  /-- Whether `urlparse(image_path).scheme` is truthy (line 520). -/
  path_has_scheme : Bool
  /-- Whether the `download(...)` call succeeds (lines 523-528). -/
  download_ok : Bool
  /-- `iso_path.exists()` after acquisition (line 532). -/
  iso_exists : Bool
  /-- Whether mounting the ISO succeeds (line 538). -/
  mount_ok : Bool
  /-- Whether the file-copy phase raises no exception (lines 574-579). -/
  copy_ok : Bool
  /-- Message of the exception raised by a failing external call. -/
  exc_msg : String
  /-- Contents of `/mnt/iso/live/version.json` when present (lines 541-545). -/
  version_file : Option VersionData
  /-- Version metadata of the currently running image.  Available to the
  program but never read by `add_image` (no compatibility check exists in
  the source). -/
  current_version_data : VersionData
  /-- `image.get_default_image_name(version)` (lines 448, 549, 551). -/
  get_default_image_name : String → String
  /-- `image.get_images()` (line 554). -/
  installed_images : List String
  /-- `disk.find_persistence()` (line 564). -/
  persistence : Option String
  /-- `Path(FILE_ROOTFS_SRC).exists()` (lines 467, 578). -/
  squashfs_exists : Bool
  /-- `dict_search("memory.total", get_version_data())` (line 391). -/
  mem_total : Option Int
  /-- `disk.disks_size()` (line 396). -/
  disks : List String
  /-- `disk.disk_size(device)` (line 425). -/
  disk_size : String → Int
  /-- `get_version_data().get("version", ...)` (lines 447-448). -/
  version_data_version : Option String
  /-- Device paths returned by the two `disk.partition_create` calls
  (lines 430-433). -/
  efi_dev : String
  root_dev : String
  /-- Module-level `find_persistence()` (lines 187-198, called at 457). -/
  persistence_inst : Option String

/-! ### `add_image` (source lines 495-597) -/

structure AddArgs where
  image_path : String
  vrf : Option String := none
  username : String := ""
  password : String := ""
  no_prompt : Bool := false
  force : Bool := false

/-- The `try/except/finally` body of `add_image` (source lines 535-597).
Any exception inside `try` is caught by `except Exception` which calls
`exit` with a message prefixed `Failed to add image: `; the `finally` clause
`cleanup([DIR_ISO_MOUNT])` runs on every path out of the block, so its
effects precede process exit.  The source computes the same
`new_image_name` in both branches of `if no_prompt:` (lines 548-551). -/
def addTryBody (w : World) (a : AddArgs) (iso_path : String) : ExitStatus × List Effect :=
  let pre := [Effect.mkdir DIR_ISO_MOUNT]
  if ¬w.mount_ok then
    (.fatal ("Failed to add image: " ++ w.exc_msg), pre ++ cleanup [DIR_ISO_MOUNT])
  else
    let pre := pre ++ [Effect.mount iso_path DIR_ISO_MOUNT]
    let version :=
      match w.version_file with
      | some vd => vd.version.getD "unknown"
      | none => "unknown"
    let base_name :=
      if a.no_prompt then w.get_default_image_name version
      else w.get_default_image_name version
    let new_image_name := resolve_image_name base_name w.installed_images
    let root_dir :=
      match w.persistence with
      | some p => if p = "" then "/" else p
      | none => "/"
    let target_dir := root_dir ++ "/boot/" ++ new_image_name
    let tr := pre ++
      [Effect.print ("Installing image: " ++ new_image_name),
       Effect.mkdir target_dir, Effect.mkdir (target_dir ++ "/rw"),
       Effect.print "Copying system files..."]
    if ¬w.copy_ok then
      (.fatal ("Failed to add image: " ++ w.exc_msg), tr ++ cleanup [DIR_ISO_MOUNT])
    else
      let tr := tr ++ [Effect.copyBootFiles DIR_ROOTFS_SRC target_dir] ++
        squashfs_copy_fx w.squashfs_exists
          (target_dir ++ "/" ++ new_image_name ++ ".squashfs") ++
        [Effect.versionAdd new_image_name root_dir] ++
        set_default_fx a.no_prompt new_image_name root_dir ++
        [Effect.print ("Image " ++ new_image_name ++ " installed successfully")]
      (.success, tr ++ cleanup [DIR_ISO_MOUNT])

/-- Source lines 495-597.  The early exits (wrong boot mode, unsaved
commits, download failure, missing file) happen before the `try` block and
therefore run no cleanup.  The `force` parameter is accepted but — exactly
as in the source — never used. -/
def add_image (w : World) (a : AddArgs) : ExitStatus × List Effect :=
  if w.is_live_boot then
    (.fatal MSG_ERR_LIVE, [])
  else if ¬a.no_prompt ∧ w.unsaved_commits then
    (.fatal MSG_ERR_UNSAVED_COMMITS, [])
  else if w.path_has_scheme then
    let tr := [Effect.print ("Downloading image from " ++ a.image_path)]
    if ¬w.download_ok then
      (.fatal ("Failed to download image: " ++ w.exc_msg), tr)
    else
      let tr := tr ++ [Effect.downloadTo a.image_path TMP_DOWNLOAD_PATH]
      if ¬w.iso_exists then
        (.fatal ("Image file not found: " ++ TMP_DOWNLOAD_PATH), tr)
      else
        let res := addTryBody w a TMP_DOWNLOAD_PATH
        (res.1, tr ++ res.2)
  else
    if ¬w.iso_exists then
      (.fatal ("Image file not found: " ++ a.image_path), [])
    else
      addTryBody w a a.image_path

/-! ### `install_image` (source lines 370-492) -/

/-- Source lines 370-492, as the trace of external calls of a run on which
no external operation fails (a failure anywhere truncates this trace: the
function has no handler, so the exception propagates to `__main__`).  The
password hashing of lines 409-414 has no observable effect besides the
content of the config seed written at line 480, whose path alone is
recorded. -/
def install_image (w : World) (no_prompt : Bool) (target_disk : Option String)
    (vyos_password : Option String) (root_size_gb : Option ℚ)
    (image_name : Option String) (set_default : Bool) (console_type : String) :
    ExitStatus × List Effect :=
  if ¬w.is_live_boot then
    (.fatal MSG_ERR_NOT_LIVE, [])
  else
    let tr := [Effect.print
      (if ¬no_prompt then MSG_INFO_INSTALL_WELCOME else "Installing VyOS image...")]
    let tr := tr ++ lowmem_warning_fx w.mem_total
    if w.disks.isEmpty then
      (.fatal MSG_ERR_NO_DISK, tr)
    else
      let sel := ask_single_disk w.disks no_prompt target_disk
      let disk_selected := sel.1
      let tr := tr ++ sel.2
      let tr := tr ++ (if ¬no_prompt then [Effect.print MSG_INFO_INSTALL_DISK_CONFIRM] else [])
      let console_type :=
        if console_type = "kvm" ∨ console_type = "serial" then console_type else "kvm"
      let tr := tr ++ [Effect.print MSG_INFO_INSTALL_PARTITONING,
                       Effect.diskCleanup disk_selected]
      let available_space := w.disk_size disk_selected - 2147483648
      let rootRes := ask_root_size available_space no_prompt root_size_gb
      let root_size := rootRes.1
      let tr := tr ++ rootRes.2
      let tr := tr ++
        [Effect.parttableCreate disk_selected "gpt",
         Effect.partitionCreate disk_selected 536870912,
         Effect.partitionCreate disk_selected root_size,
         Effect.filesystemCreate w.efi_dev "vfat",
         Effect.filesystemCreate w.root_dev "ext4",
         Effect.mkdir DIR_INSTALLATION,
         Effect.mount w.root_dev DIR_INSTALLATION,
         Effect.mkdir (DIR_INSTALLATION ++ "/boot/efi"),
         Effect.mount w.efi_dev (DIR_INSTALLATION ++ "/boot/efi")]
      let image_name :=
        match image_name with
        | some n =>
          if n = "" then w.get_default_image_name (w.version_data_version.getD "unknown")
          else n
        | none => w.get_default_image_name (w.version_data_version.getD "unknown")
      let target_dir := DIR_INSTALLATION ++ "/boot/" ++ image_name
      let tr := tr ++ [Effect.mkdir target_dir, Effect.mkdir (target_dir ++ "/rw"),
                       Effect.print "Copying system files..."]
      let tr := tr ++ iso_mount_fx w.persistence_inst
      let tr := tr ++ [Effect.copyBootFiles DIR_ROOTFS_SRC target_dir]
      let tr := tr ++
        squashfs_copy_fx w.squashfs_exists (target_dir ++ "/" ++ image_name ++ ".squashfs")
      let tr := tr ++
        [Effect.grubInstall disk_selected,
         Effect.setConsoleType console_type DIR_INSTALLATION,
         Effect.versionAdd image_name DIR_INSTALLATION]
      let tr := tr ++ set_default_fx set_default image_name DIR_INSTALLATION
      let tr := tr ++
        [Effect.writeFile (target_dir ++ "/rw/opt/vyatta/etc/config/.vyatta_config")]
      let tr := tr ++ iso_umount_fx w.persistence_inst
      let tr := tr ++
        [Effect.umount (DIR_INSTALLATION ++ "/boot/efi"),
         Effect.umount DIR_INSTALLATION,
         Effect.sync,
         Effect.print MSG_INFO_INSTALL_SUCCESS]
      (.success, tr)

/-! ### Argument parsing and dispatch (source lines 600-681) -/

/-- Parsed CLI flags, with the argparse defaults of lines 606-635.
`action` is one of `install`/`add` and `console_type` one of
`kvm`/`serial` (argparse `choices`). -/
structure Args where
  action : String
  vrf : Option String := none
  no_prompt : Bool := false
  username : String := ""
  password : String := ""
  image_path : Option String := none
  force : Bool := false
  target_disk : Option String := none
  vyos_password : String := "vyos"
  root_size_gb : Option ℚ := none
  image_name : Option String := none
  no_set_default : Bool := false
  console_type : String := "kvm"

/-- Post-parse validation and dispatch (source lines 639-673): `add`
requires a truthy image path; `install` forces non-interactive mode;
`add_image` receives only path, vrf, credentials, `no_prompt` and `force`
— `no_set_default`, `image_name` and `console_type` are not passed to it.
The trailing `exit()` of line 673 is status 0, so a workflow that returns
normally yields `ExitStatus.success`. -/
def runMain (w : World) (a : Args) : ExitStatus × List Effect :=
  if a.action = "add" ∧ a.image_path.getD "" = "" then
    (.fatal "A path to image is required for add action", [])
  else
    let no_prompt := if a.action = "install" then true else a.no_prompt
    if a.action = "install" then
      install_image w no_prompt a.target_disk (some a.vyos_password) a.root_size_gb
        a.image_name (¬a.no_set_default) a.console_type
    else if a.action = "add" then
      add_image w
        { image_path := a.image_path.getD "", vrf := a.vrf, username := a.username,
          password := a.password, no_prompt := no_prompt, force := a.force }
    else
      (.success, [])

/-- The `except KeyboardInterrupt` handler of `__main__` (source lines
675-678): print a fixed notice, run `cleanup()` with its default arguments
(no mounts, remove the installation directory), then `exit()` with
status 0. -/
def mainInterruptHandler : ExitStatus × List Effect :=
  (.success, Effect.print "Stopped by Ctrl+C" :: cleanup)

/-! ### Decimal representation of naturals

`Nat.repr` is defined in core through the fuelled `Nat.toDigitsCore`.  To
reason about the collision-resolution loop we need that two distinct
counters yield distinct suffixes, i.e. that `Nat.repr` is injective.  The
fuel-free function `decDigits` below is proved equal to the digit list of core,
and a left inverse (`parseDecDigits`) gives injectivity. -/

def decDigits (n : Nat) : List Char :=
  if n < 10 then [Nat.digitChar n]
  else decDigits (n / 10) ++ [Nat.digitChar (n % 10)]
decreasing_by exact Nat.div_lt_self (by omega) (by omega)

def charDigitVal (c : Char) : Nat := c.toNat - 48

def parseDecDigits (l : List Char) : Nat :=
  l.foldl (fun acc c => acc * 10 + charDigitVal c) 0

/-! ## Lemmas about decimal representation -/

theorem toDigitsCore_eq_decDigits :
    ∀ (fuel n : Nat) (ds : List Char), n < fuel →
      Nat.toDigitsCore 10 fuel n ds = decDigits n ++ ds := by
  intro fuel
  induction fuel with
  | zero => intro n ds h; omega
  | succ fuel ih =>
    intro n ds h
    by_cases h10 : n < 10
    · have hdiv : n / 10 = 0 := Nat.div_eq_of_lt h10
      have hmod : n % 10 = n := Nat.mod_eq_of_lt h10
      rw [decDigits]
      simp only [Nat.toDigitsCore, hdiv, hmod, if_pos, h10, if_true,
        List.singleton_append]
    · have hdiv : ¬(n / 10 = 0) := by
        intro hc
        have := (Nat.div_eq_zero_iff (by omega)).1 hc
        omega
      have hlt : n / 10 < fuel := by
        have hsel : n / 10 < n := Nat.div_lt_self (by omega) (by norm_num)
        omega
      rw [decDigits]
      simp only [Nat.toDigitsCore, hdiv, if_false, h10, ih (n / 10) _ hlt,
        List.append_assoc, List.singleton_append]

theorem nat_repr_eq_decDigits (n : Nat) : Nat.repr n = (decDigits n).asString := by
  rw [Nat.repr, Nat.toDigits, toDigitsCore_eq_decDigits (n + 1) n [] (Nat.lt_succ_self n),
    List.append_nil]

theorem charDigitVal_digitChar : ∀ d, d < 10 → charDigitVal (Nat.digitChar d) = d := by
  decide

theorem foldl_decDigits (n : Nat) : ∀ acc : Nat,
    (decDigits n).foldl (fun acc c => acc * 10 + charDigitVal c) acc =
      acc * 10 ^ (decDigits n).length + n := by
  induction n using Nat.strong_induction_on with
  | _ n ih =>
    intro acc
    by_cases h10 : n < 10
    · rw [decDigits]
      simp only [h10, if_true, List.foldl_cons, List.foldl_nil, List.length_singleton,
        pow_one, charDigitVal_digitChar n h10]
    · have hlt : n / 10 < n := Nat.div_lt_self (by omega) (by omega)
      rw [decDigits]
      simp only [h10, if_false, List.foldl_append, List.foldl_cons, List.foldl_nil,
        List.length_append, List.length_singleton]
      rw [ih (n / 10) hlt acc]
      have hmod : charDigitVal (Nat.digitChar (n % 10)) = n % 10 :=
        charDigitVal_digitChar (n % 10) (Nat.mod_lt n (by omega))
      rw [hmod, pow_succ, ← Nat.mul_assoc, Nat.add_mul]
      generalize acc * 10 ^ (decDigits (n / 10)).length * 10 = Y
      omega

theorem parse_decDigits (n : Nat) : parseDecDigits (decDigits n) = n := by
  rw [parseDecDigits, foldl_decDigits]
  simp

theorem nat_repr_injective : Function.Injective Nat.repr := by
  intro a b h
  rw [nat_repr_eq_decDigits, nat_repr_eq_decDigits] at h
  have hdata : decDigits a = decDigits b := congrArg String.data h
  have := congrArg parseDecDigits hdata
  rwa [parse_decDigits, parse_decDigits] at this

theorem suffixed_counter_injective (name : String) :
    ∀ a b : Nat, suffixed name a = suffixed name b → a = b := by
  intro a b h
  rw [suffixed, suffixed] at h
  have hdata : name.data ++ (("." : String).data ++ (Nat.repr a).data) =
      name.data ++ (("." : String).data ++ (Nat.repr b).data) := by
    have := congrArg String.data h
    simpa [String.data_append] using this
  have h2 := List.append_cancel_left hdata
  have h3 := List.append_cancel_left h2
  have h4 : Nat.repr a = Nat.repr b := by
    apply congrArg List.asString at h3
    simpa [List.asString] using h3
  exact nat_repr_injective h4

theorem suffixed_ne_name (name : String) (k : Nat) : suffixed name k ≠ name := by
  intro h
  have := congrArg String.length h
  rw [suffixed, String.length_append, String.length_append] at this
  have h1 : ("." : String).length = 1 := rfl
  omega

/-! ## Lemmas about the collision-resolution loop -/

theorem resolveLoop_not_mem (name : String) (installed : List String) :
    ∀ (fuel counter : Nat),
      (∃ j, j < fuel ∧ suffixed name (counter + j) ∉ installed) →
      suffixed name (resolveLoop name installed counter fuel) ∉ installed := by
  intro fuel
  induction fuel with
  | zero =>
    intro counter h
    obtain ⟨j, hj, _⟩ := h
    omega
  | succ fuel ih =>
    intro counter h
    obtain ⟨j, hj, hns⟩ := h
    rw [resolveLoop]
    by_cases hmem : suffixed name counter ∈ installed
    · rw [if_pos hmem]
      apply ih
      cases j with
      | zero => simp only [Nat.add_zero] at hns; exact absurd hmem hns
      | succ j =>
        refine ⟨j, by omega, ?_⟩
        have : counter + 1 + j = counter + (j + 1) := by omega
        rwa [this]
    · rwa [if_neg hmem]

theorem resolveLoop_eq_first (name : String) (installed : List String) :
    ∀ (fuel counter k : Nat), counter ≤ k → k - counter < fuel →
      (∀ j, counter ≤ j → j < k → suffixed name j ∈ installed) →
      suffixed name k ∉ installed →
      resolveLoop name installed counter fuel = k := by
  intro fuel
  induction fuel with
  | zero => intro counter k h1 h2 _ _; omega
  | succ fuel ih =>
    intro counter k hck hfuel hall hk
    rw [resolveLoop]
    by_cases hek : counter = k
    · subst hek
      rw [if_neg hk]
    · have hmem : suffixed name counter ∈ installed := hall counter le_rfl (by omega)
      rw [if_pos hmem]
      exact ih (counter + 1) k (by omega) (by omega)
        (fun j hj1 hj2 => hall j (by omega) hj2) hk

/-- Pigeonhole: among the first `installed.length + 1` candidate suffixes
at least one is not an installed name (the candidates are pairwise
distinct). -/
theorem exists_free_suffix (name : String) (installed : List String) :
    ∃ j, j < installed.length + 1 ∧ suffixed name (1 + j) ∉ installed := by
  by_contra hcon
  push_neg at hcon
  have hmaps : ∀ j ∈ Finset.range (installed.length + 1),
      suffixed name (1 + j) ∈ installed.toFinset := by
    intro j hj
    rw [List.mem_toFinset]
    exact hcon j (Finset.mem_range.1 hj)
  have hinj : Set.InjOn (fun j => suffixed name (1 + j))
      (Finset.range (installed.length + 1)) := by
    intro a _ b _ hab
    have := suffixed_counter_injective name (1 + a) (1 + b) hab
    omega
  have hcard := Finset.card_le_card_of_injOn _ hmaps hinj
  rw [Finset.card_range] at hcard
  have hle := installed.toFinset_card_le
  omega

/-! ## Claim C9 -/

/-- Claim C9: for every finite set of installed image names, the
numeric-suffix collision-resolution loop of the add-image workflow
(source lines 554-559) terminates (the fuel `installed.length + 1` given
to the embedded loop is never exhausted) and returns a name that is not in
that set. -/
theorem c9_resolve_image_name_fresh (name : String) (installed : List String) :
    resolve_image_name name installed ∉ installed := by
  rw [resolve_image_name]
  by_cases hmem : name ∈ installed
  · rw [if_pos hmem]
    exact resolveLoop_not_mem name installed (installed.length + 1) 1
      (exists_free_suffix name installed)
  · rwa [if_neg hmem]

/-! ## Claim C2 -/

/-- Claim C2: if the installed image names are exactly `name`, `name.1`,
..., `name.(N-1)` (with `N ≥ 1`), then the add-image collision resolution
(source lines 553-559) returns exactly `name.N`. -/
theorem c2_collision_resolution (name : String) (N : Nat) (installed : List String)
    (hN : 1 ≤ N)
    (hmem : ∀ x, x ∈ installed ↔ x = name ∨ ∃ i, 1 ≤ i ∧ i < N ∧ x = suffixed name i) :
    resolve_image_name name installed = suffixed name N := by
  have hname : name ∈ installed := (hmem name).2 (Or.inl rfl)
  have hNfree : suffixed name N ∉ installed := by
    intro hc
    rcases (hmem _).1 hc with h | ⟨i, hi1, hi2, hi3⟩
    · exact suffixed_ne_name name N h
    · have := suffixed_counter_injective name N i hi3
      omega
  have hall : ∀ j, 1 ≤ j → j < N → suffixed name j ∈ installed := by
    intro j h1 h2
    exact (hmem _).2 (Or.inr ⟨j, h1, h2, rfl⟩)
  have hlen : N - 1 ≤ installed.length := by
    have hmaps : ∀ i ∈ Finset.range (N - 1),
        suffixed name (1 + i) ∈ installed.toFinset := by
      intro i hi
      rw [List.mem_toFinset]
      exact hall (1 + i) (by omega) (by have := Finset.mem_range.1 hi; omega)
    have hinj : Set.InjOn (fun i => suffixed name (1 + i)) (Finset.range (N - 1)) := by
      intro x _ y _ hxy
      have := suffixed_counter_injective name (1 + x) (1 + y) hxy
      omega
    have hcard := Finset.card_le_card_of_injOn _ hmaps hinj
    rw [Finset.card_range] at hcard
    have hle := installed.toFinset_card_le
    omega
  rw [resolve_image_name, if_pos hname]
  congr 1
  exact resolveLoop_eq_first name installed (installed.length + 1) 1 N hN (by omega)
    hall hNfree

/-- Witness for C2 at the concrete scenario of the spec: with `vyos-1.4`
installed once, the new image is registered as `vyos-1.4.1`. -/
theorem c2_collision_resolution_witness :
    resolve_image_name "vyos-1.4" ["vyos-1.4"] = "vyos-1.4.1" := by
  have h := c2_collision_resolution "vyos-1.4" 1 ["vyos-1.4"] (by omega) ?hm
  · rw [h]
    decide
  case hm =>
    intro x
    constructor
    · intro hx
      simp only [List.mem_singleton] at hx
      exact Or.inl hx
    · rintro (h | ⟨i, h1, h2, _⟩)
      · simp [h]
      · omega

/-! ## Claim C3 -/

theorem rat_trunc_intCast (m : ℤ) : rat_trunc (m : ℚ) = m := by
  rw [rat_trunc, Rat.num_intCast, Rat.den_intCast]
  simp

theorem gb_to_bytes_intCast (m : ℤ) : gb_to_bytes (m : ℚ) = m * 1024 ^ 3 := by
  rw [gb_to_bytes]
  have h : (m : ℚ) * (1024 ^ 3 : ℚ) = ((m * 1024 ^ 3 : ℤ) : ℚ) := by
    push_cast
    ring
  rw [h, rat_trunc_intCast]

/-- Claim C3 counterexample: a requested root size of exactly `0` GB is
strictly outside `[1.5 GiB, 20 GiB]`, yet non-interactive `ask_root_size`
resolves it to all available space **silently** — no advisory is emitted
(the source tests `if root_size_gb:`, and `0.0` is falsy in Python), so
the claim that an advisory is always emitted for out-of-range requests is
false. -/
theorem c3_zero_size_no_advisory :
    gb_to_bytes 0 < CONST_MIN_ROOT_SIZE ∧
      ask_root_size (20 * 1024 ^ 3) true (some 0) = (20 * 1024 ^ 3, []) := by
  constructor
  · have h0 : gb_to_bytes ((0 : ℤ) : ℚ) = 0 * 1024 ^ 3 := gb_to_bytes_intCast 0
    rw [Int.cast_zero] at h0
    rw [h0]
    decide
  · rw [ask_root_size]
    norm_num

/-- Claim C3 (amended): in non-interactive mode, every requested root size
whose byte value is outside `[CONST_MIN_ROOT_SIZE, available_space]`
resolves to all available space and never aborts; the advisory is emitted
if and only if the requested size is nonzero (a requested size of exactly
`0` is treated like "no size given" and falls back silently). -/
theorem c3_out_of_range_uses_all_space (available_space : Int) (q : ℚ)
    (hout : gb_to_bytes q < CONST_MIN_ROOT_SIZE ∨ gb_to_bytes q > available_space) :
    (ask_root_size available_space true (some q)).1 = available_space ∧
      ((ask_root_size available_space true (some q)).2 =
          [Effect.printInvalidRootSize available_space] ↔ q ≠ 0) := by
  rw [ask_root_size]
  by_cases hq : q = 0
  · subst hq
    simp
  · simp only [if_true, hq, ne_eq, not_false_eq_true, if_pos, hout, if_true]
    simp [hq, hout]

/-- Witness for C3 (amended) at the concrete scenario of the spec:
`root_size_gb = 1.0` with 20 GiB available resolves to 20 GiB, with the
advisory emitted. -/
theorem c3_out_of_range_uses_all_space_witness :
    (ask_root_size (20 * 1024 ^ 3) true (some 1)).1 = 20 * 1024 ^ 3 ∧
      ((ask_root_size (20 * 1024 ^ 3) true (some 1)).2 =
          [Effect.printInvalidRootSize (20 * 1024 ^ 3)] ↔ (1 : ℚ) ≠ 0) := by
  apply c3_out_of_range_uses_all_space
  left
  have h1 : gb_to_bytes ((1 : ℤ) : ℚ) = 1 * 1024 ^ 3 := gb_to_bytes_intCast 1
  rw [Int.cast_one] at h1
  rw [h1]
  decide

/-! ## String helper lemmas -/

theorem string_append_ne_of_head {p t : String} (s : String) {c d : Char}
    (hp : p.data.head? = some c) (ht : t.data.head? = some d) (hcd : c ≠ d) :
    p ++ s ≠ t := by
  intro h
  apply hcd
  have hd := congrArg String.data h
  rw [String.data_append] at hd
  cases hpd : p.data with
  | nil => simp [hpd] at hp
  | cons x xs =>
    rw [hpd] at hd hp
    simp only [List.head?_cons, Option.some.injEq] at hp
    have ht2 : t.data.head? = some x := by
      rw [← hd]
      rfl
    rw [ht2] at ht
    simp only [Option.some.injEq] at ht
    rw [← hp, ← ht]

theorem failed_download_ne_unsaved (s : String) :
    "Failed to download image: " ++ s ≠ MSG_ERR_UNSAVED_COMMITS :=
  string_append_ne_of_head s (c := 'F') (d := 'T') rfl rfl (by decide)

theorem not_found_ne_unsaved (s : String) :
    "Image file not found: " ++ s ≠ MSG_ERR_UNSAVED_COMMITS :=
  string_append_ne_of_head s (c := 'I') (d := 'T') rfl rfl (by decide)

theorem failed_add_ne_unsaved (s : String) :
    "Failed to add image: " ++ s ≠ MSG_ERR_UNSAVED_COMMITS :=
  string_append_ne_of_head s (c := 'F') (d := 'T') rfl rfl (by decide)

/-! ## Claim C8 -/

theorem addTryBody_fst_shapes (w : World) (a : AddArgs) (p : String) :
    (addTryBody w a p).1 = .success ∨
      (addTryBody w a p).1 = .fatal ("Failed to add image: " ++ w.exc_msg) := by
  rw [addTryBody]
  by_cases h1 : w.mount_ok <;> by_cases h2 : w.copy_ok <;> simp [h1, h2]

theorem add_image_status_ne_unsaved (w : World) (a : AddArgs)
    (hlive : w.is_live_boot = false)
    (hcond : a.no_prompt = true ∨ w.unsaved_commits = false) :
    (add_image w a).1 ≠ .fatal MSG_ERR_UNSAVED_COMMITS := by
  have hc : ¬(¬a.no_prompt = true ∧ w.unsaved_commits = true) := by
    rcases hcond with h | h <;> simp [h]
  have htry : ∀ p, (addTryBody w a p).1 ≠ .fatal MSG_ERR_UNSAVED_COMMITS := by
    intro p
    rcases addTryBody_fst_shapes w a p with h | h <;> rw [h]
    · simp
    · intro hx
      exact failed_add_ne_unsaved w.exc_msg (ExitStatus.fatal.inj hx)
  rw [add_image]
  rw [if_neg (by simp [hlive])]
  rw [if_neg hc]
  by_cases h2 : w.path_has_scheme <;>
    by_cases h3 : w.download_ok <;>
    by_cases h4 : w.iso_exists <;>
    simp [h2, h3, h4, htry, failed_download_ne_unsaved, not_found_ne_unsaved]

/-- Claim C8: with the system not in live-boot mode, the add-image
workflow fails with the unsaved-commits error if and only if the running
configuration has unsaved changes and non-interactive mode was not
requested; and when it so fails, no effect has been performed (the check
precedes every destructive step).  With `no_prompt` set it proceeds past
this check regardless of unsaved changes. -/
theorem c8_unsaved_commits_gate (w : World) (a : AddArgs)
    (hlive : w.is_live_boot = false) :
    ((add_image w a).1 = .fatal MSG_ERR_UNSAVED_COMMITS ↔
      a.no_prompt = false ∧ w.unsaved_commits = true) ∧
      ((add_image w a).1 = .fatal MSG_ERR_UNSAVED_COMMITS →
        (add_image w a).2 = []) := by
  by_cases hnp : a.no_prompt
  · have hne := add_image_status_ne_unsaved w a hlive (Or.inl hnp)
    refine ⟨⟨fun h => absurd h hne, ?_⟩, fun h => absurd h hne⟩
    rintro ⟨h1, _⟩
    rw [hnp] at h1
    exact absurd h1 (by simp)
  · by_cases huc : w.unsaved_commits
    · have heq : add_image w a = (.fatal MSG_ERR_UNSAVED_COMMITS, []) := by
        rw [add_image]
        rw [if_neg (by simp [hlive])]
        rw [if_pos ⟨hnp, huc⟩]
      rw [heq]
      exact ⟨⟨fun _ => ⟨by simpa using hnp, huc⟩, fun _ => rfl⟩, fun _ => rfl⟩
    · have hne := add_image_status_ne_unsaved w a hlive
        (Or.inr (by simpa using huc))
      refine ⟨⟨fun h => absurd h hne, ?_⟩, fun h => absurd h hne⟩
      rintro ⟨_, h2⟩
      exact absurd h2 (by simpa using huc)

/-- Witness for C8: a concrete interactive invocation with unsaved
changes fails fatally with the unsaved-commits message before any effect. -/
theorem c8_unsaved_commits_gate_witness :
    (add_image
        { is_live_boot := false, unsaved_commits := true, path_has_scheme := false,
          download_ok := true, iso_exists := true, mount_ok := true, copy_ok := true,
          exc_msg := "", version_file := none,
          current_version_data := ⟨none, none, none⟩,
          get_default_image_name := fun v => "vyos-" ++ v,
          installed_images := [], persistence := none, squashfs_exists := true,
          mem_total := none, disks := [], disk_size := fun _ => 0,
          version_data_version := none, efi_dev := "", root_dev := "",
          persistence_inst := none }
        { image_path := "/tmp/a.iso", no_prompt := false }).1 =
      .fatal MSG_ERR_UNSAVED_COMMITS := by
  exact (c8_unsaved_commits_gate _ _ rfl).1.2 ⟨rfl, rfl⟩

/-! ## Membership lemmas for the sub-traces -/

theorem mem_lowmem_warning_fx {e : Effect} {o : Option Int}
    (h : e ∈ lowmem_warning_fx o) : e = Effect.print MSG_LOWMEM_WARNING := by
  rcases o with _ | m
  · simp [lowmem_warning_fx] at h
  · rw [lowmem_warning_fx] at h
    split at h <;> simpa using h

theorem mem_iso_mount_fx {e : Effect} {o : Option String}
    (h : e ∈ iso_mount_fx o) : ∃ p, e = Effect.mount p DIR_ISO_MOUNT := by
  rcases o with _ | p
  · simp [iso_mount_fx] at h
  · rw [iso_mount_fx] at h
    split at h <;> simp at h
    exact ⟨p, h⟩

theorem mem_iso_umount_fx {e : Effect} {o : Option String}
    (h : e ∈ iso_umount_fx o) : e = Effect.umount DIR_ISO_MOUNT := by
  rcases o with _ | p
  · simp [iso_umount_fx] at h
  · rw [iso_umount_fx] at h
    split at h <;> simpa using h

theorem mem_squashfs_copy_fx {e : Effect} {b : Bool} {dst : String}
    (h : e ∈ squashfs_copy_fx b dst) : e = Effect.copyFile FILE_ROOTFS_SRC dst := by
  rw [squashfs_copy_fx] at h
  split at h <;> simpa using h

theorem mem_set_default_fx {e : Effect} {b : Bool} {n r : String}
    (h : e ∈ set_default_fx b n r) : b = true ∧ e = Effect.setDefault n r := by
  rw [set_default_fx] at h
  split at h
  · simp at h
    exact ⟨by assumption, h⟩
  · simp at h

theorem set_default_fx_true (n r : String) :
    set_default_fx true n r = [Effect.setDefault n r] := rfl

theorem set_default_fx_false (n r : String) :
    set_default_fx false n r = [] := rfl

theorem mem_ask_single_disk {e : Effect} {d : List String} {np : Bool}
    {t : Option String} (h : e ∈ (ask_single_disk d np t).2) :
    ∃ s, e = Effect.print ("Using disk: " ++ s) := by
  rw [ask_single_disk.eq_def] at h
  split at h <;> simp at h
  exact ⟨_, h⟩

theorem mem_ask_root_size {e : Effect} {av : Int} {np : Bool} {q : Option ℚ}
    (h : e ∈ (ask_root_size av np q).2) : e = Effect.printInvalidRootSize av := by
  rw [ask_root_size.eq_def] at h
  split at h
  · rcases q with _ | q
    · simp at h
    · simp only at h
      split at h
      · split at h <;> simpa using h
      · simp at h
  · simp at h

/-! ## Claim C10 -/

theorem addTryBody_versionAdd_to_setDefault (w : World) (a : AddArgs) (p : String)
    (hnp : a.no_prompt = true) (n r : String)
    (h : Effect.versionAdd n r ∈ (addTryBody w a p).2) :
    Effect.setDefault n r ∈ (addTryBody w a p).2 := by
  rw [addTryBody] at h ⊢
  by_cases h1 : w.mount_ok <;>
    by_cases h2 : w.copy_ok <;>
    by_cases h3 : w.squashfs_exists <;>
    simp [h1, h2, h3, hnp, cleanup, set_default_fx, squashfs_copy_fx] at h ⊢ <;>
    first | exact h | tauto

theorem addTryBody_no_setDefault (w : World) (a : AddArgs) (p : String)
    (hnp : a.no_prompt = false) (n r : String) :
    Effect.setDefault n r ∉ (addTryBody w a p).2 := by
  intro h
  rw [addTryBody] at h
  by_cases h1 : w.mount_ok <;>
    by_cases h2 : w.copy_ok <;>
    by_cases h3 : w.squashfs_exists <;>
    simp [h1, h2, h3, hnp, cleanup, set_default_fx, squashfs_copy_fx] at h

/-- Claim C10: in `add_image`, with `no_prompt = True` every image
registered with the bootloader is also set as the default (source lines
582-590); with `no_prompt = False` the Default Pointer is never changed. -/
theorem c10_add_image_default_policy (w : World) (a : AddArgs) :
    (a.no_prompt = true →
      ∀ n r, Effect.versionAdd n r ∈ (add_image w a).2 →
        Effect.setDefault n r ∈ (add_image w a).2) ∧
      (a.no_prompt = false →
        ∀ n r, Effect.setDefault n r ∉ (add_image w a).2) := by
  constructor
  · intro hnp n r h
    rw [add_image] at h ⊢
    by_cases h0 : w.is_live_boot <;>
      by_cases hc : ¬a.no_prompt = true ∧ w.unsaved_commits = true <;>
      by_cases h2 : w.path_has_scheme <;>
      by_cases h3 : w.download_ok <;>
      by_cases h4 : w.iso_exists <;>
      simp only [h0, hc, h2, h3, h4, if_true, if_false, ite_true, ite_false,
        not_true_eq_false, not_false_eq_true, List.mem_append, List.mem_singleton,
        List.mem_cons, List.not_mem_nil, or_false, false_or, reduceCtorEq,
        reduceIte] at h ⊢ <;>
      first
        | exact absurd h (by simp)
        | (rcases h with h | h
           · exact absurd h (by simp)
           · exact Or.inr (addTryBody_versionAdd_to_setDefault w a _ hnp n r h))
        | exact addTryBody_versionAdd_to_setDefault w a _ hnp n r h
  · intro hnp n r
    intro h
    rw [add_image] at h
    by_cases h0 : w.is_live_boot <;>
      by_cases hc : ¬a.no_prompt = true ∧ w.unsaved_commits = true <;>
      by_cases h2 : w.path_has_scheme <;>
      by_cases h3 : w.download_ok <;>
      by_cases h4 : w.iso_exists <;>
      simp only [h0, hc, h2, h3, h4, if_true, if_false, ite_true, ite_false,
        not_true_eq_false, not_false_eq_true, List.mem_append, List.mem_singleton,
        List.mem_cons, List.not_mem_nil, or_false, false_or, reduceCtorEq,
        reduceIte] at h <;>
      first
        | exact absurd h (by simp)
        | (rcases h with h | h
           · exact absurd h (by simp)
           · exact addTryBody_no_setDefault w a _ hnp n r h)
        | exact addTryBody_no_setDefault w a _ hnp n r h

/-- Witness for C10: a concrete non-interactive run registers its image
and sets it as default. -/
theorem c10_add_image_default_policy_witness :
    Effect.setDefault "vyos-1.5.0" "/" ∈
      (add_image
        { is_live_boot := false, unsaved_commits := false, path_has_scheme := false,
          download_ok := true, iso_exists := true, mount_ok := true, copy_ok := true,
          exc_msg := "", version_file := some ⟨some "1.5.0", some "amd64", some "generic"⟩,
          current_version_data := ⟨some "1.4.0", some "amd64", some "generic"⟩,
          get_default_image_name := fun v => "vyos-" ++ v,
          installed_images := [], persistence := none, squashfs_exists := true,
          mem_total := none, disks := [], disk_size := fun _ => 0,
          version_data_version := none, efi_dev := "", root_dev := "",
          persistence_inst := none }
        { image_path := "/tmp/a.iso", no_prompt := true }).2 :=
  (c10_add_image_default_policy _ _).1 rfl "vyos-1.5.0" "/" (by decide)

/-! ## Claim C1 -/

/-- A fully concrete world in which the currently running image has
architecture `amd64` / flavor `iso` while the version file of the new
image declares architecture `arm64` / flavor `generic` — the exact
situation the compatibility check of the spec must reject even under
`force`. -/
def mismatchWorld : World :=
  { is_live_boot := false, unsaved_commits := false, path_has_scheme := false,
    download_ok := true, iso_exists := true, mount_ok := true, copy_ok := true,
    exc_msg := "err",
    version_file := some ⟨some "1.5.0", some "arm64", some "generic"⟩,
    current_version_data := ⟨some "1.4.0", some "amd64", some "iso"⟩,
    get_default_image_name := fun v => "vyos-" ++ v,
    installed_images := ["vyos-1.4.0"],
    persistence := some "/usr/lib/live/mount/persistence",
    squashfs_exists := true,
    mem_total := some 8589934592, disks := ["/dev/sda"],
    disk_size := fun _ => 34359738368, version_data_version := some "1.4.0",
    efi_dev := "/dev/sda1", root_dev := "/dev/sda2",
    persistence_inst := none }

/-- Claim C1 (code bug): `add_image` runs **no** compatibility check: with
the current image on `amd64` and the new image built for `arm64`, and
`force` not set, the workflow succeeds and registers the incompatible
image with the bootloader instead of failing fatally before any
destructive step.  (The source defines the mismatch messages and accepts
`--force`, but never consults architecture or flavor: the `force`
parameter of `add_image` is unused.) -/
theorem c1_no_compatibility_check :
    (add_image mismatchWorld { image_path := "/tmp/new.iso", force := false }).1 =
        ExitStatus.success ∧
      Effect.versionAdd "vyos-1.5.0" "/usr/lib/live/mount/persistence" ∈
        (add_image mismatchWorld { image_path := "/tmp/new.iso", force := false }).2 := by
  decide

/-! ## Claim C5 -/

theorem cleanup_iso_effects :
    cleanup [DIR_ISO_MOUNT] = [Effect.print "Cleaning up", Effect.umount DIR_ISO_MOUNT,
      Effect.removeItem DIR_INSTALLATION] := rfl

theorem mounted_applyEffects_append (s : SysState) (t1 t2 : List Effect) :
    applyEffects s (t1 ++ t2) = applyEffects (applyEffects s t1) t2 :=
  List.foldl_append applyEffect s t1 t2

theorem not_mem_filter_ne_self (x : String) (l : List String) :
    x ∉ l.filter (· ≠ x) := by
  intro h
  have := (List.mem_filter.1 h).2
  simp at this

theorem files_mem_preserved (x : String) (tr : List Effect) :
    ∀ s : SysState, x ∈ s.files →
      ¬(x = DIR_INSTALLATION ∨ (DIR_INSTALLATION ++ "/").data.isPrefixOf x.data) →
      (∀ p, Effect.removeItem p ∈ tr → p = DIR_INSTALLATION) →
      x ∈ (applyEffects s tr).files := by
  induction tr with
  | nil => intro s hm _ _; exact hm
  | cons e tr ih =>
    intro s hm hx hrm
    rw [applyEffects, List.foldl_cons]
    apply ih (applyEffect s e) ?_ hx (fun p hp => hrm p (List.mem_cons_of_mem e hp))
    cases e with
    | removeItem p =>
      have hp : p = DIR_INSTALLATION := hrm p (List.mem_cons_self _ _)
      subst hp
      simp only [applyEffect, List.mem_filter]
      exact ⟨hm, by simpa using hx⟩
    | downloadTo u d => exact List.mem_cons_of_mem _ hm
    | mkdir p => exact List.mem_cons_of_mem _ hm
    | copyFile a b => exact List.mem_cons_of_mem _ hm
    | writeFile p => exact List.mem_cons_of_mem _ hm
    | print m => exact hm
    | printInvalidRootSize a => exact hm
    | mount a b => exact hm
    | umount a => exact hm
    | copyBootFiles a b => exact hm
    | diskCleanup a => exact hm
    | parttableCreate a b => exact hm
    | partitionCreate a b => exact hm
    | filesystemCreate a b => exact hm
    | grubInstall a => exact hm
    | setConsoleType a b => exact hm
    | versionAdd a b => exact hm
    | setDefault a b => exact hm
    | sync => exact hm

theorem addTryBody_removeItem_only (w : World) (a : AddArgs) (p : String) :
    ∀ q, Effect.removeItem q ∈ (addTryBody w a p).2 → q = DIR_INSTALLATION := by
  intro q h
  rw [addTryBody] at h
  by_cases h1 : w.mount_ok <;>
    by_cases h2 : w.copy_ok <;>
    by_cases h3 : w.squashfs_exists <;>
    by_cases hnp : a.no_prompt <;>
    simp [h1, h2, h3, hnp, cleanup, squashfs_copy_fx, set_default_fx] at h <;>
    exact h

theorem add_image_removeItem_only (w : World) (a : AddArgs) :
    ∀ q, Effect.removeItem q ∈ (add_image w a).2 → q = DIR_INSTALLATION := by
  intro q h
  rw [add_image] at h
  by_cases h0 : w.is_live_boot <;>
    by_cases hc : ¬a.no_prompt = true ∧ w.unsaved_commits = true <;>
    by_cases h2 : w.path_has_scheme <;>
    by_cases h3 : w.download_ok <;>
    by_cases h4 : w.iso_exists <;>
    simp only [h0, hc, h2, h3, h4, if_true, if_false, ite_true, ite_false,
      not_true_eq_false, not_false_eq_true, List.mem_append, List.mem_singleton,
      List.mem_cons, List.not_mem_nil, or_false, false_or, reduceCtorEq,
      reduceIte] at h <;>
    first
      | exact absurd h (by simp)
      | exact addTryBody_removeItem_only w a _ q h
      | (rcases h with h | h
         · exact absurd h (by simp)
         · exact addTryBody_removeItem_only w a _ q h)

theorem addTryBody_unmounts (w : World) (a : AddArgs) (p : String) (s : SysState) :
    DIR_ISO_MOUNT ∉ (applyEffects s (addTryBody w a p).2).mounted := by
  rw [addTryBody]
  by_cases h1 : w.mount_ok <;>
    by_cases h2 : w.copy_ok <;>
    by_cases h3 : w.squashfs_exists <;>
    by_cases hnp : a.no_prompt <;>
    simp only [h1, h2, h3, hnp, cleanup, squashfs_copy_fx, set_default_fx,
      if_true, if_false, ite_true, ite_false, not_true_eq_false, not_false_eq_true,
      reduceIte, List.map, List.isEmpty_nil, List.append_nil, List.nil_append,
      List.singleton_append, List.cons_append, applyEffects, List.foldl_cons,
      List.foldl_nil, applyEffect] <;>
    exact not_mem_filter_ne_self _ _

theorem add_image_iso_unmounted (w : World) (a : AddArgs) :
    DIR_ISO_MOUNT ∉ (applyEffects initState (add_image w a).2).mounted := by
  rw [add_image]
  by_cases h0 : w.is_live_boot <;>
    by_cases hc : ¬a.no_prompt = true ∧ w.unsaved_commits = true <;>
    by_cases h2 : w.path_has_scheme <;>
    by_cases h3 : w.download_ok <;>
    by_cases h4 : w.iso_exists <;>
    simp only [h0, hc, h2, h3, h4, if_true, if_false, ite_true, ite_false,
      not_true_eq_false, not_false_eq_true, reduceIte, List.singleton_append,
      List.cons_append, List.nil_append] <;>
    first
      | (simp [applyEffects, applyEffect, initState]; done)
      | (simp only [applyEffects, applyEffect, List.foldl_cons, List.foldl_nil, initState]
         exact addTryBody_unmounts w a _ _)
      | exact addTryBody_unmounts w a _ _

theorem addTryBody_no_download (w : World) (a : AddArgs) (p u d : String) :
    Effect.downloadTo u d ∉ (addTryBody w a p).2 := by
  intro h
  rw [addTryBody] at h
  by_cases h1 : w.mount_ok <;>
    by_cases h2 : w.copy_ok <;>
    by_cases h3 : w.squashfs_exists <;>
    by_cases hnp : a.no_prompt <;>
    simp [h1, h2, h3, hnp, cleanup, squashfs_copy_fx, set_default_fx] at h

theorem tmp_not_under_install :
    ¬(TMP_DOWNLOAD_PATH = DIR_INSTALLATION ∨
      (DIR_INSTALLATION ++ "/").data.isPrefixOf TMP_DOWNLOAD_PATH.data = true) := by
  decide

theorem add_image_artifact_persists (w : World) (a : AddArgs)
    (h : Effect.downloadTo a.image_path TMP_DOWNLOAD_PATH ∈ (add_image w a).2) :
    TMP_DOWNLOAD_PATH ∈ (applyEffects initState (add_image w a).2).files := by
  rw [add_image] at h ⊢
  by_cases h0 : w.is_live_boot <;>
    by_cases hc : ¬a.no_prompt = true ∧ w.unsaved_commits = true <;>
    by_cases h2 : w.path_has_scheme <;>
    by_cases h3 : w.download_ok <;>
    by_cases h4 : w.iso_exists <;>
    simp only [h0, hc, h2, h3, h4, if_true, if_false, ite_true, ite_false,
      not_true_eq_false, not_false_eq_true, Bool.false_eq_true, Bool.true_eq_false,
      reduceIte, List.singleton_append,
      List.cons_append, List.nil_append] at h ⊢ <;>
    first
      | (simp [applyEffects, applyEffect, initState]; done)
      | (refine absurd h ?_
         simp [addTryBody_no_download]
         done)
      | (simp only [applyEffects, List.foldl_cons, initState, applyEffect]
         refine files_mem_preserved TMP_DOWNLOAD_PATH _ _ ?_ tmp_not_under_install
           (addTryBody_removeItem_only w a _)
         simp
         done)

/-- Claim C5 (amended): on every path of `add_image` — success and all
failure paths — the source ISO mount point ends unmounted and the only
item ever removed by cleanup is the installation directory; consequently a
temporary download artifact created by the run is **never** removed: it is
still present when the process exits. -/
theorem c5_cleanup_scope (w : World) (a : AddArgs) :
    DIR_ISO_MOUNT ∉ (applyEffects initState (add_image w a).2).mounted ∧
      (∀ q, Effect.removeItem q ∈ (add_image w a).2 → q = DIR_INSTALLATION) ∧
      (Effect.downloadTo a.image_path TMP_DOWNLOAD_PATH ∈ (add_image w a).2 →
        TMP_DOWNLOAD_PATH ∈ (applyEffects initState (add_image w a).2).files) :=
  ⟨add_image_iso_unmounted w a, add_image_removeItem_only w a,
    add_image_artifact_persists w a⟩

/-- A concrete world whose image path is a URL and in which every external
step succeeds. -/
def urlWorld : World :=
  { is_live_boot := false, unsaved_commits := false, path_has_scheme := true,
    download_ok := true, iso_exists := true, mount_ok := true, copy_ok := true,
    exc_msg := "err",
    version_file := some ⟨some "1.5.0", some "amd64", some "generic"⟩,
    current_version_data := ⟨some "1.4.0", some "amd64", some "generic"⟩,
    get_default_image_name := fun v => "vyos-" ++ v,
    installed_images := [],
    persistence := none,
    squashfs_exists := true,
    mem_total := none, disks := [], disk_size := fun _ => 0,
    version_data_version := none, efi_dev := "", root_dev := "",
    persistence_inst := none }

/-- The CLI arguments of a download-based non-interactive add run. -/
def urlArgs : AddArgs :=
  { image_path := "http://example.org/vyos.iso", no_prompt := true }

/-- Claim C5 counterexample: a successful download-based `add_image` run
leaves the temporary download artifact `/tmp/vyos_image.iso` on disk — it
is not removed on the success path, contradicting the claim. -/
theorem c5_artifact_left_counterexample :
    (add_image urlWorld urlArgs).1 = ExitStatus.success ∧
      TMP_DOWNLOAD_PATH ∈
        (applyEffects initState (add_image urlWorld urlArgs).2).files := by
  decide

/-- Witness for C5 (amended): the same concrete run, through the amended
theorem: the ISO mount point ends unmounted and the downloaded artifact is
still present. -/
theorem c5_cleanup_scope_witness :
    DIR_ISO_MOUNT ∉
        (applyEffects initState (add_image urlWorld
          { image_path := "http://u/i.iso", no_prompt := true }).2).mounted ∧
      TMP_DOWNLOAD_PATH ∈
        (applyEffects initState (add_image urlWorld
          { image_path := "http://u/i.iso", no_prompt := true }).2).files :=
  ⟨(c5_cleanup_scope urlWorld _).1,
    (c5_cleanup_scope urlWorld _).2.2 (by decide)⟩

/-! ## Claims C6 and C7: the install workflow and the Default Pointer -/

@[simp] theorem setDefault_not_mem_lowmem (n r : String) (o : Option Int) :
    Effect.setDefault n r ∉ lowmem_warning_fx o := by
  intro h
  have := mem_lowmem_warning_fx h
  simp at this

@[simp] theorem setDefault_not_mem_iso_mount (n r : String) (o : Option String) :
    Effect.setDefault n r ∉ iso_mount_fx o := by
  intro h
  obtain ⟨p, hp⟩ := mem_iso_mount_fx h
  simp at hp

@[simp] theorem setDefault_not_mem_iso_umount (n r : String) (o : Option String) :
    Effect.setDefault n r ∉ iso_umount_fx o := by
  intro h
  have := mem_iso_umount_fx h
  simp at this

@[simp] theorem setDefault_not_mem_squashfs (n r : String) (b : Bool) (dst : String) :
    Effect.setDefault n r ∉ squashfs_copy_fx b dst := by
  intro h
  have := mem_squashfs_copy_fx h
  simp at this

@[simp] theorem setDefault_not_mem_ask_single_disk (n r : String) (d : List String)
    (np : Bool) (t : Option String) :
    Effect.setDefault n r ∉ (ask_single_disk d np t).2 := by
  intro h
  obtain ⟨s, hs⟩ := mem_ask_single_disk h
  simp at hs

@[simp] theorem setDefault_not_mem_ask_root_size (n r : String) (av : Int)
    (np : Bool) (q : Option ℚ) :
    Effect.setDefault n r ∉ (ask_root_size av np q).2 := by
  intro h
  have := mem_ask_root_size h
  simp at this

theorem install_image_no_setDefault (w : World) (np : Bool) (td : Option String)
    (vp : Option String) (rs : Option ℚ) (iname : Option String) (ct : String) :
    ∀ n r, Effect.setDefault n r ∉ (install_image w np td vp rs iname false ct).2 := by
  intro n r h
  rw [install_image.eq_def] at h
  by_cases h0 : w.is_live_boot
  · by_cases h1 : w.disks.isEmpty
    · simp [h0, h1] at h
    · by_cases hnp : np <;>
        simp [h0, h1, hnp, set_default_fx] at h
  · simp [h0] at h

@[simp] theorem add_ne_install_str : ("add" = "install") = False := by
  simp

/-- Claim C6 (amended): `--no-set-default` does prevent any Default
Pointer change for the `install` action; for the `add` action the flag is
silently ignored — the dispatch (source lines 663-671) never passes it to
`add_image`, whose behaviour is therefore identical whether or not the
flag is set (with `--no-prompt` the new image is still made the default,
see C10). -/
theorem c6_no_set_default_policy (w : World) (a : Args) :
    (a.action = "install" → a.no_set_default = true →
      ∀ n r, Effect.setDefault n r ∉ (runMain w a).2) ∧
      (a.action = "add" →
        runMain w { a with no_set_default := true } =
          runMain w { a with no_set_default := false }) := by
  constructor
  · intro hact hnsd n r h
    have hne : ¬(a.action = "add" ∧ a.image_path.getD "" = "") := by
      rw [hact]
      rintro ⟨hq, _⟩
      exact absurd hq (by decide)
    rw [runMain, if_neg hne] at h
    rw [hact] at h
    simp only [reduceIte, if_true, eq_self_iff_true] at h
    rw [hnsd] at h
    have hcoe : (decide ¬(true = true)) = false := by decide
    rw [hcoe] at h
    exact install_image_no_setDefault w true a.target_disk (some a.vyos_password)
      a.root_size_gb a.image_name a.console_type n r h
  · intro hact
    rw [runMain, runMain]
    simp [hact]

/-- A set of CLI arguments exercising `add` with both `--no-prompt` and
`--no-set-default`. -/
def addNoDefaultArgs : Args :=
  { action := "add", image_path := some "http://example.org/vyos.iso",
    no_prompt := true, no_set_default := true }

/-- Claim C6 counterexample: with `--action add --no-prompt
--no-set-default`, the Default Pointer is still changed — the new image is
set as the bootloader default, contradicting the claim that
`--no-set-default` leaves the Default Pointer unchanged for both actions. -/
theorem c6_add_ignores_flag_counterexample :
    addNoDefaultArgs.no_set_default = true ∧
      Effect.setDefault "vyos-1.5.0" "/" ∈ (runMain urlWorld addNoDefaultArgs).2 := by
  decide

/-- Witness for C6 (amended): a concrete `install` invocation with
`--no-set-default` never touches the Default Pointer. -/
theorem c6_no_set_default_policy_witness :
    Effect.setDefault "vyos-1.5.0" DIR_INSTALLATION ∉
      (runMain { urlWorld with is_live_boot := true }
        { action := "install", no_set_default := true }).2 :=
  (c6_no_set_default_policy { urlWorld with is_live_boot := true }
    { action := "install", no_set_default := true }).1 rfl rfl "vyos-1.5.0" DIR_INSTALLATION

@[simp] theorem print_not_mem_set_default_fx (m : String) (b : Bool) (n r : String) :
    Effect.print m ∉ set_default_fx b n r := by
  intro h
  have := mem_set_default_fx h
  simp at this

@[simp] theorem print_not_mem_squashfs (m : String) (b : Bool) (dst : String) :
    Effect.print m ∉ squashfs_copy_fx b dst := by
  intro h
  have := mem_squashfs_copy_fx h
  simp at this

@[simp] theorem print_not_mem_iso_mount (m : String) (o : Option String) :
    Effect.print m ∉ iso_mount_fx o := by
  intro h
  obtain ⟨p, hp⟩ := mem_iso_mount_fx h
  simp at hp

@[simp] theorem print_not_mem_iso_umount (m : String) (o : Option String) :
    Effect.print m ∉ iso_umount_fx o := by
  intro h
  have := mem_iso_umount_fx h
  simp at this

@[simp] theorem warn_not_mem_lowmem (o : Option Int) :
    Effect.print MSG_WARN_CONSOLE_TYPE_INVALID ∉ lowmem_warning_fx o := by
  intro h
  have := mem_lowmem_warning_fx h
  simp only [Effect.print.injEq] at this
  exact absurd this (by decide)

@[simp] theorem warn_not_mem_ask_single_disk (d : List String) (np : Bool)
    (t : Option String) :
    Effect.print MSG_WARN_CONSOLE_TYPE_INVALID ∉ (ask_single_disk d np t).2 := by
  intro h
  obtain ⟨s, hs⟩ := mem_ask_single_disk h
  simp only [Effect.print.injEq] at hs
  exact string_append_ne_of_head (p := "Using disk: ")
    (t := MSG_WARN_CONSOLE_TYPE_INVALID) s (c := 'U') (d := 'I') rfl rfl
    (by decide) hs.symm

@[simp] theorem warn_not_mem_ask_root_size (av : Int) (np : Bool) (q : Option ℚ) :
    Effect.print MSG_WARN_CONSOLE_TYPE_INVALID ∉ (ask_root_size av np q).2 := by
  intro h
  have := mem_ask_root_size h
  simp at this

@[simp] theorem welcome_ne_warn :
    MSG_INFO_INSTALL_WELCOME ≠ MSG_WARN_CONSOLE_TYPE_INVALID := by decide

@[simp] theorem installing_ne_warn :
    ("Installing VyOS image..." : String) ≠ MSG_WARN_CONSOLE_TYPE_INVALID := by decide

@[simp] theorem confirm_ne_warn :
    MSG_INFO_INSTALL_DISK_CONFIRM ≠ MSG_WARN_CONSOLE_TYPE_INVALID := by decide

@[simp] theorem partitioning_ne_warn :
    MSG_INFO_INSTALL_PARTITONING ≠ MSG_WARN_CONSOLE_TYPE_INVALID := by decide

@[simp] theorem copying_ne_warn :
    ("Copying system files..." : String) ≠ MSG_WARN_CONSOLE_TYPE_INVALID := by decide

@[simp] theorem success_ne_warn :
    MSG_INFO_INSTALL_SUCCESS ≠ MSG_WARN_CONSOLE_TYPE_INVALID := by decide

@[simp] theorem warn_ne_welcome :
    MSG_WARN_CONSOLE_TYPE_INVALID ≠ MSG_INFO_INSTALL_WELCOME := by decide

@[simp] theorem warn_ne_installing :
    MSG_WARN_CONSOLE_TYPE_INVALID ≠ ("Installing VyOS image..." : String) := by decide

@[simp] theorem warn_ne_confirm :
    MSG_WARN_CONSOLE_TYPE_INVALID ≠ MSG_INFO_INSTALL_DISK_CONFIRM := by decide

@[simp] theorem warn_ne_partitioning :
    MSG_WARN_CONSOLE_TYPE_INVALID ≠ MSG_INFO_INSTALL_PARTITONING := by decide

@[simp] theorem warn_ne_copying :
    MSG_WARN_CONSOLE_TYPE_INVALID ≠ ("Copying system files..." : String) := by decide

@[simp] theorem warn_ne_success :
    MSG_WARN_CONSOLE_TYPE_INVALID ≠ MSG_INFO_INSTALL_SUCCESS := by decide

/-- Claim C7 (amended): every console-type value other than `kvm` or
`serial` passed to the install workflow falls back to `kvm` — the
bootloader is configured with console type `kvm` — but **silently**: the
warning `MSG_WARN_CONSOLE_TYPE_INVALID` is defined in the source yet never
printed (and the CLI parser additionally rejects such values before the
workflow runs). -/
theorem c7_console_fallback (w : World) (np : Bool) (td : Option String)
    (vp : Option String) (rs : Option ℚ) (iname : Option String) (sd : Bool)
    (ct : String) (hlive : w.is_live_boot = true) (hd : w.disks.isEmpty = false)
    (hct : ¬(ct = "kvm" ∨ ct = "serial")) :
    Effect.setConsoleType "kvm" DIR_INSTALLATION ∈
        (install_image w np td vp rs iname sd ct).2 ∧
      Effect.print MSG_WARN_CONSOLE_TYPE_INVALID ∉
        (install_image w np td vp rs iname sd ct).2 := by
  constructor
  · rw [install_image.eq_def]
    simp [hlive, hd, hct]
  · intro h
    rw [install_image.eq_def] at h
    by_cases hnp : np <;>
      simp [hlive, hd, hnp, hct] at h

/-- A concrete live-boot world in which a fresh install can run end to
end. -/
def installWorld : World :=
  { is_live_boot := true, unsaved_commits := false, path_has_scheme := false,
    download_ok := true, iso_exists := true, mount_ok := true, copy_ok := true,
    exc_msg := "err",
    version_file := none,
    current_version_data := ⟨some "1.4.0", some "amd64", some "generic"⟩,
    get_default_image_name := fun v => "vyos-" ++ v,
    installed_images := [],
    persistence := none,
    squashfs_exists := true,
    mem_total := none, disks := ["/dev/sda"],
    disk_size := fun _ => 23622320128, version_data_version := some "1.4.0",
    efi_dev := "/dev/sda1", root_dev := "/dev/sda2",
    persistence_inst := none }

/-- Witness for C7 (amended) at a concrete invocation with console type
`foo`: the bootloader is configured with `kvm` and no warning is
printed. -/
theorem c7_console_fallback_witness :
    Effect.setConsoleType "kvm" DIR_INSTALLATION ∈
        (install_image installWorld true none (some "vyos") none none true "foo").2 ∧
      Effect.print MSG_WARN_CONSOLE_TYPE_INVALID ∉
        (install_image installWorld true none (some "vyos") none none true "foo").2 :=
  c7_console_fallback installWorld true none (some "vyos") none none true "foo"
    rfl rfl (by decide)

/-- Claim C7 counterexample: in a concrete install run with console type
`foo`, the configured console type falls back to `kvm` but the run prints
no console-type warning anywhere — contradicting the claim that a warning
is emitted. -/
theorem c7_silent_fallback_counterexample :
    Effect.setConsoleType "kvm" DIR_INSTALLATION ∈
        (install_image installWorld true none (some "vyos") none none false "vga").2 ∧
      Effect.print MSG_WARN_CONSOLE_TYPE_INVALID ∉
        (install_image installWorld true none (some "vyos") none none false "vga").2 := by
  decide

/-! ## Claim C4 -/

/-- Claim C4 (amended): on a keyboard interrupt the process prints the
fixed notice, runs `cleanup()` with its defaults and exits with status
zero; the installation root directory is removed, but **no unmounting is
performed** — the handler passes no mount points to `cleanup`, so the
mounted set is left exactly as it was. -/
theorem c4_interrupt_behaviour (s : SysState) :
    mainInterruptHandler.1 = ExitStatus.success ∧
      mainInterruptHandler.2 =
        [Effect.print "Stopped by Ctrl+C", Effect.print "Cleaning up",
         Effect.removeItem DIR_INSTALLATION] ∧
      (applyEffects s mainInterruptHandler.2).mounted = s.mounted ∧
      DIR_INSTALLATION ∉ (applyEffects s mainInterruptHandler.2).files := by
  refine ⟨rfl, rfl, rfl, ?_⟩
  simp [mainInterruptHandler, cleanup, applyEffects, applyEffect, List.mem_filter]

/-- The effect trace of a concrete fresh install, truncated inside its
COPY_FILES phase (after both partitions were mounted, before any
unmount). -/
def installRunPart : List Effect :=
  (install_image installWorld true none (some "vyos") none none true "kvm").2.take 17

/-- Claim C4 counterexample: interrupting the concrete install run during
COPY_FILES leaves the installation root mount point mounted even after
the interrupt handler has run — the handler unmounts nothing —
contradicting the claim that no mount point created during the run
remains mounted. -/
theorem c4_mounts_survive_counterexample :
    mainInterruptHandler.1 = ExitStatus.success ∧
      DIR_INSTALLATION ∈ (applyEffects initState installRunPart).mounted ∧
      DIR_INSTALLATION ∈
        (applyEffects (applyEffects initState installRunPart)
          mainInterruptHandler.2).mounted := by
  decide
